import Mathlib

/-!
Shallow embedding of `src/data_maryland.py`, a single-file pipeline that
fetches county-level ACS data (median household income, Gini index) for
Maryland for a fixed list of years, aggregates per year, computes Pearson
correlations, prints tables, and renders two charts.

Modelling choices:
- Numeric data values are modelled as `ℚ` (the script's floats, in exact
  arithmetic).  A missing / unparseable value (`NaN` after
  `pd.to_numeric(..., errors="coerce")`) is `Option.none`.
- The network together with JSON parsing is an oracle
  `resp : ℕ → Except String (List RawRow)`: for a year it yields either the
  parsed data rows of the response table or the message of the exception
  raised by `requests.get` / `raise_for_status` / `r.json()` /
  `pd.DataFrame`.  `pd.to_numeric(·, errors="coerce")` on a single cell is
  an oracle `p : String → Option ℚ`; it is total (coercion never raises).
- Side effects (prints, `plt.show`) are recorded in an event trace, with
  the payloads that matter for the claims; the per-year Pearson correlation
  values are real numbers and are kept out of the trace so that the trace
  stays computable.
- Pearson correlation (`Series.corr`) is embedded by its definition
  r = sxy / (sqrt sxx * sqrt syy) over the rows where both columns are
  non-null, returning `none` (pandas: NaN) when there are fewer than two
  points or either variance is zero.
-/

/-- The fixed year list `YEARS = [2012, 2014, 2016, 2018, 2022]`. -/
def YEARS : List ℕ := [2012, 2014, 2016, 2018, 2022]

/-- `STATE_FIPS = "24"` (Maryland). -/
def STATE_FIPS : String := "24"

/-- `VAR_INCOME = "B19013_001E"` (median household income). -/
def VAR_INCOME : String := "B19013_001E"

/-- `VAR_GINI = "B19083_001E"` (Gini index). -/
def VAR_GINI : String := "B19083_001E"

/-- One parsed data row of the API response table (after
`pd.DataFrame(data[1:], columns=data[0])`): the `NAME` cell, the two raw
variable cells, and the `state` / `county` codes, all strings. -/
structure RawRow where
  name : String
  incomeStr : String
  giniStr : String
  state : String
  county : String
deriving DecidableEq, Repr

/-- One row of the cleaned per-year DataFrame returned by
`fetch_acs_county_year` (columns `NAME, state, county, year, income, gini`).
The two numeric columns are nullable; `dropna` guarantees `some` values in
rows that actually leave the fetcher. -/
structure CountyRow where
  name : String
  state : String
  county : String
  year : ℕ
  income : Option ℚ
  gini : Option ℚ
deriving DecidableEq, Repr

/-- The cleaning part of `fetch_acs_county_year` (lines 31-40 of the
source), applied to the parsed response rows `raw` of year `year`:
tag with the year, coerce the two variable columns through `p`
(`pd.to_numeric(..., errors="coerce")`, unparseable cells become null,
never an error), then `dropna(subset=["income", "gini"])`. -/
def fetch_acs_county_year (p : String → Option ℚ) (raw : List RawRow)
    (year : ℕ) : List CountyRow :=
  ((raw.map (fun w =>
      { name := w.name, state := w.state, county := w.county, year := year
        income := p w.incomeStr, gini := p w.giniStr : CountyRow })).filter
    (fun r => r.income.isSome && r.gini.isSome))

/-- One row of the `state_trend` aggregate table. -/
structure TrendRow where
  year : ℕ
  avg_income : ℚ
  median_income : ℚ
  avg_gini : ℚ
  median_gini : ℚ
  n_counties : ℕ
deriving DecidableEq, Repr

/-- Observable events of a run: the loop's `[OK]` / `[FAIL]` lines, the
three printed results (aggregate table, per-year correlation table,
overall-correlation line), the two chart windows (`plt.show()`), and the
final failed-years section. -/
inductive Event where
  | okLine (year : ℕ) (nrows : ℕ)
  | failLine (year : ℕ) (msg : String)
  | trendTable (t : List TrendRow)
  | corrTableLine (years : List ℕ)
  | overallLine
  | chartIncome
  | chartGini
  | failedHeader
  | reportFailLine (year : ℕ) (msg : String)
deriving DecidableEq, Repr

/-- State accumulated by the fetch loop: `all_dfs`, `failed_years`, and the
stdout lines printed while looping. -/
structure LoopOut where
  dfs : List (List CountyRow)
  failed : List (ℕ × String)
  events : List Event
deriving DecidableEq, Repr

/-- The per-year fetch loop (source lines 43-53): for each year in order,
either append the cleaned DataFrame to `all_dfs` and print `[OK]`, or
append `(year, message)` to `failed_years` and print `[FAIL]`. -/
def fetchLoop (p : String → Option ℚ) (resp : ℕ → Except String (List RawRow)) :
    List ℕ → LoopOut
  | [] => ⟨[], [], []⟩
  | y :: ys =>
    match resp y with
    | Except.ok raw =>
      let df := fetch_acs_county_year p raw y
      let r := fetchLoop p resp ys
      ⟨df :: r.dfs, r.failed, Event.okLine y df.length :: r.events⟩
    | Except.error e =>
      let r := fetchLoop p resp ys
      ⟨r.dfs, (y, e) :: r.failed, Event.failLine y e :: r.events⟩

/-- The message of the `RuntimeError` raised when `all_dfs` is empty. -/
def noDataMsg : String := "No data fetched. Check network / years / API availability."

/-- Arithmetic mean of a list of values (pandas `mean` on a non-empty
non-null column). -/
def qmean (l : List ℚ) : ℚ := l.sum / l.length

/-- Median of a list of values (pandas `median`): middle sorted value for
odd counts, average of the two middle sorted values for even counts. -/
def qmedian (l : List ℚ) : ℚ :=
  let s := List.insertionSort (· ≤ ·) l
  if s.length % 2 = 1 then s.getD (s.length / 2) 0
  else (s.getD (s.length / 2 - 1) 0 + s.getD (s.length / 2) 0) / 2

/-- The group keys of `final_df.groupby("year")`: the distinct years of the
rows, in ascending order (pandas sorts group keys). -/
def groupYears (rows : List CountyRow) : List ℕ :=
  List.insertionSort (· ≤ ·) ((rows.map (fun c => c.year)).dedup)

/-- The `state_trend` table (source lines 61-72): group `final_df` by year;
per year the mean and median of `income` and of `gini`, and
`n_counties = count of non-null NAME cells` (`NAME` is a string column with
no nulls, so this is the group's row count). -/
def state_trend (rows : List CountyRow) : List TrendRow :=
  (groupYears rows).map (fun y =>
    let g := rows.filter (fun c => c.year == y)
    { year := y
      avg_income := qmean (g.filterMap (fun c => c.income))
      median_income := qmedian (g.filterMap (fun c => c.income))
      avg_gini := qmean (g.filterMap (fun c => c.gini))
      median_gini := qmedian (g.filterMap (fun c => c.gini))
      n_counties := (g.map (fun c => c.name)).length })

/-- The aligned (income, gini) pairs of a row set, keeping only rows where
both values are non-null — exactly the pairs pandas uses for
`s1.corr(s2)`. -/
def toPairs (rows : List CountyRow) : List (ℚ × ℚ) :=
  rows.filterMap (fun r =>
    match r.income, r.gini with
    | some a, some b => some (a, b)
    | _, _ => none)

/-- The aligned (gini, income) pairs of a row set: the pairs pandas would
use for the argument-swapped correlation `g["gini"].corr(g["income"])`. -/
def toPairsGI (rows : List CountyRow) : List (ℚ × ℚ) :=
  rows.filterMap (fun r =>
    match r.income, r.gini with
    | some a, some b => some (b, a)
    | _, _ => none)

/-- Centered second moment of the first coordinates,
`sxx = Σ (x - mean x)^2`. -/
def sxx (ps : List (ℚ × ℚ)) : ℚ :=
  (ps.map (fun q => (q.1 - qmean (ps.map Prod.fst)) ^ 2)).sum

/-- Centered second moment of the second coordinates,
`syy = Σ (y - mean y)^2`. -/
def syy (ps : List (ℚ × ℚ)) : ℚ :=
  (ps.map (fun q => (q.2 - qmean (ps.map Prod.snd)) ^ 2)).sum

/-- Centered mixed moment, `sxy = Σ (x - mean x) * (y - mean y)`. -/
def sxy (ps : List (ℚ × ℚ)) : ℚ :=
  (ps.map (fun q =>
    (q.1 - qmean (ps.map Prod.fst)) * (q.2 - qmean (ps.map Prod.snd)))).sum

/-- Pearson product-moment correlation of a list of points, as computed by
pandas `Series.corr`: `sxy / (sqrt sxx * sqrt syy)`; NaN (here `none`) when
there are fewer than 2 points or either variance is zero. -/
noncomputable def pearsonR (ps : List (ℚ × ℚ)) : Option ℝ :=
  if ps.length < 2 ∨ sxx ps = 0 ∨ syy ps = 0 then none
  else some ((sxy ps : ℝ) / (Real.sqrt (sxx ps) * Real.sqrt (syy ps)))

/-- One row of the `corr_by_year` table. -/
structure CorrRow where
  year : ℕ
  corr_income_gini : Option ℝ

/-- The `corr_by_year` table (source lines 78-83): per year of `final_df`,
the Pearson correlation `g["income"].corr(g["gini"])` over that year's
rows.  This is the table the stage produces when `final_df` has at least
one row (then `groupby.apply` yields a Series and `.reset_index(name=...)`
succeeds); over an empty `final_df` the stage instead raises an uncaught
`TypeError` at `.reset_index` — that failing case is modelled in
`runProgram`, which never reaches this table there. -/
noncomputable def corr_by_year (rows : List CountyRow) : List CorrRow :=
  (groupYears rows).map (fun y =>
    ⟨y, pearsonR (toPairs (rows.filter (fun c => c.year == y)))⟩)

/-- The `overall_corr` value (source line 89): Pearson correlation of
`income` against `gini` over every row of `final_df`. -/
noncomputable def overall_corr (rows : List CountyRow) : Option ℝ :=
  pearsonR (toPairs rows)

/-- The argument-swapped overall correlation, `corr(gini, income)` on the
same rows — the comparand of the symmetry property. -/
noncomputable def overall_corr_swapped (rows : List CountyRow) : Option ℝ :=
  pearsonR (toPairsGI rows)

/-- The data produced by a completed run: `final_df`, the `state_trend`
table, and `failed_years`. -/
structure Results where
  final : List CountyRow
  trend : List TrendRow
  failed : List (ℕ × String)
deriving DecidableEq, Repr

/-- The message of the uncaught `TypeError` raised by the `corr_by_year`
pipeline (source line 81) when `final_df` has zero rows: `groupby.apply`
over zero groups returns an empty DataFrame, and `DataFrame.reset_index`
rejects the `name` keyword argument (only `Series.reset_index` has it). -/
def typeErrorMsg : String :=
  "reset_index() got an unexpected keyword argument: name"

/-- The whole program (source lines 43-111): run the fetch loop over
`YEARS`; if `all_dfs` is empty (`if not all_dfs:`) raise the
`RuntimeError`.  Otherwise concatenate into `final_df` and build and print
`state_trend` (lines 61-75, total even for an empty `final_df`).  The
`corr_by_year` stage (lines 78-83) then distinguishes two cases: with at
least one row, `groupby.apply` yields a Series and
`.reset_index(name=...)` succeeds, after which the rest of the script is
total (print the correlation table and the overall correlation, show the
two charts, and print the failed-years section if any year failed); with
zero rows, `groupby.apply` over zero groups yields a DataFrame whose
`reset_index` has no `name` keyword, so the run dies with an uncaught
`TypeError` right after the aggregate table is printed — no correlation
output, no charts and no failed-years listing.  Returns the event trace
together with either the raised error's message or the results. -/
def runProgram (p : String → Option ℚ) (resp : ℕ → Except String (List RawRow)) :
    List Event × Except String Results :=
  let r := fetchLoop p resp YEARS
  if r.dfs.isEmpty then
    (r.events, Except.error noDataMsg)
  else
    let final := r.dfs.flatten
    let trend := state_trend final
    if final.isEmpty then
      (r.events ++ [Event.trendTable trend], Except.error typeErrorMsg)
    else
      (r.events ++
        [Event.trendTable trend, Event.corrTableLine (groupYears final),
         Event.overallLine, Event.chartIncome, Event.chartGini] ++
        (if r.failed.isEmpty then []
         else Event.failedHeader ::
           r.failed.map (fun f => Event.reportFailLine f.1 f.2)),
       Except.ok ⟨final, trend, r.failed⟩)

/-- Whether an event is one of the two chart displays. -/
def isChart : Event → Bool
  | Event.chartIncome => true
  | Event.chartGini => true
  | _ => false

/-- Whether an event is a line of the reporter's failed-years listing. -/
def isReportFail : Event → Bool
  | Event.reportFailLine _ _ => true
  | _ => false

/-- Whether an event is one of the reporter's three printed results
(aggregate table, correlation table, overall-correlation line). -/
def isReportTable : Event → Bool
  | Event.trendTable _ => true
  | Event.corrTableLine _ => true
  | Event.overallLine => true
  | _ => false

/-- Decidable equality for `Except`, used to evaluate a run's outcome on
concrete inputs. -/
instance {ε α : Type} [DecidableEq ε] [DecidableEq α] : DecidableEq (Except ε α)
  | Except.ok a, Except.ok b =>
    if h : a = b then isTrue (by rw [h])
    else isFalse (fun hh => h (Except.ok.inj hh))
  | Except.ok _, Except.error _ => isFalse (fun hh => Except.noConfusion hh)
  | Except.error _, Except.ok _ => isFalse (fun hh => Except.noConfusion hh)
  | Except.error e, Except.error f =>
    if h : e = f then isTrue (by rw [h])
    else isFalse (fun hh => h (Except.error.inj hh))

/-! Concrete fixtures used by witnesses and counterexamples. -/

/-- A coercion oracle under which no cell parses: every value becomes null
(`pd.to_numeric` yields NaN on every cell). -/
def parse0 : String → Option ℚ := fun _ => none

/-- A coercion oracle under which every cell parses to 1. -/
def parseOne : String → Option ℚ := fun _ => some 1

/-- A raw response row with unparseable-looking numeric cells. -/
def rawW : RawRow := ⟨"Allegany County, Maryland", "(X)", "(X)", "24", "001"⟩

/-- A response oracle where every year succeeds with a one-row table. -/
def respOneRow : ℕ → Except String (List RawRow) := fun _ => Except.ok [rawW]

/-- A response oracle where 2012 succeeds with an empty table and every
other year fails with an HTTP 500 error. -/
def respB : ℕ → Except String (List RawRow) := fun y =>
  if y = 2012 then Except.ok [] else Except.error "HTTP 500"

/-- A response oracle where 2012 succeeds with a one-row table and every
other year fails with an HTTP 500 error. -/
def respC : ℕ → Except String (List RawRow) := fun y =>
  if y = 2012 then Except.ok [rawW] else Except.error "HTTP 500"

/-- The cleaned row that `respC`'s single raw row becomes under
`parseOne`. -/
def rowC : CountyRow :=
  ⟨"Allegany County, Maryland", "24", "001", 2012, some 1, some 1⟩

/-- The failure list accumulated in the `respC` run. -/
def failedC : List (ℕ × String) :=
  [(2014, "HTTP 500"), (2016, "HTTP 500"), (2018, "HTTP 500"), (2022, "HTTP 500")]

/-- A response oracle where every year fails. -/
def respF : ℕ → Except String (List RawRow) := fun _ => Except.error "network down"

/-- A two-row combined table for the exact-count witness. -/
def rowsW : List CountyRow :=
  [⟨"Allegany County, Maryland", "24", "001", 2012, some 1, some 1⟩,
   ⟨"Anne Arundel County, Maryland", "24", "003", 2012, some 1, some 1⟩]

/-- A one-row combined table (a year with a single county). -/
def rowsS : List CountyRow :=
  [⟨"Allegany County, Maryland", "24", "001", 2016, some 1, some 1⟩]

/-- The combined table of end-to-end scenario A: one year (2012), three
counties, incomes 50000 / 60000 / 70000 and Gini 0.40 / 0.42 / 0.44. -/
def finalA : List CountyRow :=
  [⟨"A County", "24", "001", 2012, some 50000, some (2/5)⟩,
   ⟨"B County", "24", "003", 2012, some 60000, some (21/50)⟩,
   ⟨"C County", "24", "005", 2012, some 70000, some (11/25)⟩]

/-! Lemmas about the fetch loop. -/

/-- Every entry of `failed_years` names a processed year whose fetch raised
that message. -/
lemma fetchLoop_failed_mem (p : String → Option ℚ)
    (resp : ℕ → Except String (List RawRow)) :
    ∀ (ys : List ℕ) (y : ℕ) (e : String),
      (y, e) ∈ (fetchLoop p resp ys).failed → y ∈ ys ∧ resp y = Except.error e := by
  intro ys
  induction ys with
  | nil => intro y e h; simp [fetchLoop] at h
  | cons a t ih =>
    intro y e h
    cases ha : resp a with
    | ok raw =>
      simp only [fetchLoop, ha] at h
      rcases ih y e h with ⟨h1, h2⟩
      exact ⟨List.mem_cons_of_mem _ h1, h2⟩
    | error msg =>
      simp only [fetchLoop, ha, List.mem_cons] at h
      rcases h with h | h
      · rcases Prod.mk.injEq .. ▸ h with ⟨h1, h2⟩
        subst h1; subst h2
        exact ⟨List.mem_cons_self _ _, ha⟩
      · rcases ih y e h with ⟨h1, h2⟩
        exact ⟨List.mem_cons_of_mem _ h1, h2⟩

/-- A year whose fetch succeeds contributes its cleaned DataFrame to
`all_dfs`. -/
lemma fetchLoop_ok_mem (p : String → Option ℚ)
    (resp : ℕ → Except String (List RawRow)) :
    ∀ (ys : List ℕ) (y : ℕ) (raw : List RawRow),
      y ∈ ys → resp y = Except.ok raw →
      fetch_acs_county_year p raw y ∈ (fetchLoop p resp ys).dfs := by
  intro ys
  induction ys with
  | nil => intro y raw h; simp at h
  | cons a t ih =>
    intro y raw hmem hok
    rcases List.mem_cons.mp hmem with h | h
    · subst h
      simp only [fetchLoop, hok]
      exact List.mem_cons_self _ _
    · cases ha : resp a with
      | ok raw2 => simp only [fetchLoop, ha]; exact List.mem_cons_of_mem _ (ih y raw h hok)
      | error msg => simp only [fetchLoop, ha]; exact ih y raw h hok

/-- A year whose fetch raises is recorded, with its message, in
`failed_years`. -/
lemma fetchLoop_error_mem (p : String → Option ℚ)
    (resp : ℕ → Except String (List RawRow)) :
    ∀ (ys : List ℕ) (y : ℕ) (e : String),
      y ∈ ys → resp y = Except.error e →
      (y, e) ∈ (fetchLoop p resp ys).failed := by
  intro ys
  induction ys with
  | nil => intro y e h; simp at h
  | cons a t ih =>
    intro y e hmem herr
    rcases List.mem_cons.mp hmem with h | h
    · subst h
      simp only [fetchLoop, herr]
      exact List.mem_cons_self _ _
    · cases ha : resp a with
      | ok raw2 => simp only [fetchLoop, ha]; exact ih y e h herr
      | error msg => simp only [fetchLoop, ha]; exact List.mem_cons_of_mem _ (ih y e h herr)

/-- Every processed year lands in exactly one accumulator: the lengths of
`all_dfs` and `failed_years` add up to the number of years. -/
lemma fetchLoop_length (p : String → Option ℚ)
    (resp : ℕ → Except String (List RawRow)) :
    ∀ ys : List ℕ,
      (fetchLoop p resp ys).dfs.length + (fetchLoop p resp ys).failed.length
        = ys.length := by
  intro ys
  induction ys with
  | nil => simp [fetchLoop]
  | cons a t ih =>
    cases ha : resp a with
    | ok raw => simp only [fetchLoop, ha, List.length_cons]; omega
    | error msg => simp only [fetchLoop, ha, List.length_cons]; omega

/-- If every processed year fails, `all_dfs` stays empty. -/
lemma fetchLoop_dfs_nil (p : String → Option ℚ)
    (resp : ℕ → Except String (List RawRow)) :
    ∀ ys : List ℕ, (∀ y ∈ ys, ∃ e, resp y = Except.error e) →
      (fetchLoop p resp ys).dfs = [] := by
  intro ys
  induction ys with
  | nil => intro _; simp [fetchLoop]
  | cons a t ih =>
    intro h
    rcases h a (List.mem_cons_self _ _) with ⟨e, he⟩
    simp only [fetchLoop, he]
    exact ih (fun y hy => h y (List.mem_cons_of_mem _ hy))

/-- The loop prints only `[OK]` and `[FAIL]` lines: no table, chart or
failed-listing event is emitted while fetching. -/
lemma fetchLoop_events_shape (p : String → Option ℚ)
    (resp : ℕ → Except String (List RawRow)) :
    ∀ (ys : List ℕ) (ev : Event), ev ∈ (fetchLoop p resp ys).events →
      (∃ y n, ev = Event.okLine y n) ∨ (∃ y e, ev = Event.failLine y e) := by
  intro ys
  induction ys with
  | nil => intro ev h; simp [fetchLoop] at h
  | cons a t ih =>
    intro ev h
    cases ha : resp a with
    | ok raw =>
      simp only [fetchLoop, ha, List.mem_cons] at h
      rcases h with h | h
      · exact Or.inl ⟨a, _, h⟩
      · exact ih ev h
    | error msg =>
      simp only [fetchLoop, ha, List.mem_cons] at h
      rcases h with h | h
      · exact Or.inr ⟨a, msg, h⟩
      · exact ih ev h

/-- If every processed year fails, every loop event is a `[FAIL]` line. -/
lemma fetchLoop_events_all_fail (p : String → Option ℚ)
    (resp : ℕ → Except String (List RawRow)) :
    ∀ ys : List ℕ, (∀ y ∈ ys, ∃ e, resp y = Except.error e) →
      ∀ ev ∈ (fetchLoop p resp ys).events, ∃ y e, ev = Event.failLine y e := by
  intro ys
  induction ys with
  | nil => intro _ ev h; simp [fetchLoop] at h
  | cons a t ih =>
    intro h ev hev
    rcases h a (List.mem_cons_self _ _) with ⟨e, he⟩
    simp only [fetchLoop, he, List.mem_cons] at hev
    rcases hev with hev | hev
    · exact ⟨a, e, hev⟩
    · exact ih (fun y hy => h y (List.mem_cons_of_mem _ hy)) ev hev

/-- A successfully fetched year never appears in `failed_years`. -/
lemma fetchLoop_ok_not_failed (p : String → Option ℚ)
    (resp : ℕ → Except String (List RawRow)) (ys : List ℕ) (y : ℕ)
    (raw : List RawRow) (hok : resp y = Except.ok raw) :
    y ∉ (fetchLoop p resp ys).failed.map Prod.fst := by
  intro hmem
  rcases List.mem_map.mp hmem with ⟨⟨y2, e⟩, hm, hfst⟩
  cases hfst
  rcases fetchLoop_failed_mem p resp ys y2 e hm with ⟨_, herr⟩
  rw [hok] at herr
  exact Except.noConfusion herr

/-- C4: if every configured year fails to fetch, the run ends with the
`RuntimeError` and the trace holds only the loop's `[FAIL]` lines. -/
theorem total_failure_raises (p : String → Option ℚ)
    (resp : ℕ → Except String (List RawRow))
    (h : ∀ y ∈ YEARS, ∃ e, resp y = Except.error e) :
    (runProgram p resp).2 = Except.error noDataMsg ∧
    ∀ ev ∈ (runProgram p resp).1, ∃ y e, ev = Event.failLine y e := by
  have hnil := fetchLoop_dfs_nil p resp YEARS h
  constructor
  · simp only [runProgram, hnil, List.isEmpty_nil, if_true]
  · intro ev hev
    simp only [runProgram, hnil, List.isEmpty_nil, if_true] at hev
    exact fetchLoop_events_all_fail p resp YEARS h ev hev

theorem total_failure_raises_witness :
    (runProgram parse0 respF).2 = Except.error noDataMsg ∧
    ∀ ev ∈ (runProgram parse0 respF).1, ∃ y e, ev = Event.failLine y e :=
  total_failure_raises parse0 respF (fun _ _ => ⟨"network down", rfl⟩)

/-- C5: accounting of the fetch loop over `YEARS`. -/
theorem year_partition (p : String → Option ℚ)
    (resp : ℕ → Except String (List RawRow)) :
    ((fetchLoop p resp YEARS).dfs.length
        + (fetchLoop p resp YEARS).failed.length = YEARS.length) ∧
    ∀ y ∈ YEARS,
      (∀ raw, resp y = Except.ok raw →
        fetch_acs_county_year p raw y ∈ (fetchLoop p resp YEARS).dfs ∧
        y ∉ (fetchLoop p resp YEARS).failed.map Prod.fst) ∧
      (∀ e, resp y = Except.error e → (y, e) ∈ (fetchLoop p resp YEARS).failed) := by
  refine ⟨fetchLoop_length p resp YEARS, ?_⟩
  intro y hy
  refine ⟨fun raw hok => ⟨fetchLoop_ok_mem p resp YEARS y raw hy hok,
      fetchLoop_ok_not_failed p resp YEARS y raw hok⟩,
    fun e herr => fetchLoop_error_mem p resp YEARS y e hy herr⟩

theorem year_partition_witness :
    (2014 ∈ YEARS) ∧ ((2014, "HTTP 500") ∈ (fetchLoop parse0 respB YEARS).failed) := by
  have h := (year_partition parse0 respB).2 2014 (by decide)
  exact ⟨by decide, h.2 "HTTP 500" rfl⟩

/-- C10: a succeeding year is appended to the successes (even when its
cleaned table has zero rows), is not recorded as failed, and its presence
prevents the all-years-failed abort: the run never ends with the guard's
`RuntimeError` (though it may still die later with the `TypeError` of the
correlation stage when the combined table is empty). -/
theorem empty_success_is_success (p : String → Option ℚ)
    (resp : ℕ → Except String (List RawRow)) (y : ℕ) (raw : List RawRow)
    (hy : y ∈ YEARS) (hok : resp y = Except.ok raw) :
    fetch_acs_county_year p raw y ∈ (fetchLoop p resp YEARS).dfs ∧
    y ∉ (fetchLoop p resp YEARS).failed.map Prod.fst ∧
    (runProgram p resp).2 ≠ Except.error noDataMsg := by
  have hmem := fetchLoop_ok_mem p resp YEARS y raw hy hok
  refine ⟨hmem, fetchLoop_ok_not_failed p resp YEARS y raw hok, ?_⟩
  have hne : (fetchLoop p resp YEARS).dfs ≠ [] := by
    intro hn
    rw [hn] at hmem
    exact List.not_mem_nil _ hmem
  have hemp : (fetchLoop p resp YEARS).dfs.isEmpty = false := by
    simpa [List.isEmpty_iff] using hne
  intro hcontra
  simp only [runProgram, hemp, Bool.false_eq_true, if_false] at hcontra
  by_cases hfe : (fetchLoop p resp YEARS).dfs.flatten.isEmpty = true
  · rw [if_pos hfe] at hcontra
    exact absurd (Except.error.inj hcontra) (by decide)
  · rw [if_neg hfe] at hcontra
    exact Except.noConfusion hcontra

theorem empty_success_is_success_witness :
    fetch_acs_county_year parse0 [] 2012 ∈ (fetchLoop parse0 respB YEARS).dfs ∧
    2012 ∉ (fetchLoop parse0 respB YEARS).failed.map Prod.fst ∧
    (runProgram parse0 respB).2 ≠ Except.error noDataMsg :=
  empty_success_is_success parse0 respB 2012 [] (by decide) rfl

/-- C1 (counterexample): a run in which every year succeeds but each
cleaned table is empty: the combined table has no rows, yet the guard does
not raise — the Aggregator is invoked, its (empty) aggregate table is
printed, and the run then dies with the correlation stage's `TypeError`
instead of the guard's `RuntimeError`. -/
theorem empty_combined_no_raise_cex :
    ¬ (∀ (p : String → Option ℚ) (resp : ℕ → Except String (List RawRow)),
        (fetchLoop p resp YEARS).dfs.flatten = [] →
        (runProgram p resp).2 = Except.error noDataMsg ∧
        ∀ t, Event.trendTable t ∉ (runProgram p resp).1) := by
  intro h
  have hflat : (fetchLoop parse0 respOneRow YEARS).dfs.flatten = [] := by decide
  rcases h parse0 respOneRow hflat with ⟨h1, _⟩
  have h2 : (runProgram parse0 respOneRow).2 = Except.error typeErrorMsg := by decide
  rw [h2] at h1
  exact absurd (Except.error.inj h1) (by decide)

/-- C1 (amended): the guard's `RuntimeError` is raised exactly when the
successes list is empty, that is, exactly when every configured year's
fetch failed.  When at least one year succeeds but the combined table has
no rows, the guard passes, the Aggregator runs and prints the (empty)
aggregate table, and the run then terminates with the correlation stage's
uncaught `TypeError` — producing no chart, no failed-years listing, no
correlation table and no overall-correlation line. -/
theorem raise_iff_all_failed (p : String → Option ℚ)
    (resp : ℕ → Except String (List RawRow)) :
    ((runProgram p resp).2 = Except.error noDataMsg ↔
      ∀ y ∈ YEARS, ∃ e, resp y = Except.error e) ∧
    ((fetchLoop p resp YEARS).dfs ≠ [] →
      (fetchLoop p resp YEARS).dfs.flatten = [] →
      (runProgram p resp).2 = Except.error typeErrorMsg ∧
      Event.trendTable (state_trend (fetchLoop p resp YEARS).dfs.flatten)
        ∈ (runProgram p resp).1 ∧
      ∀ ev ∈ (runProgram p resp).1, isChart ev = false ∧
        isReportFail ev = false ∧ ev ≠ Event.overallLine ∧
        ∀ c, ev ≠ Event.corrTableLine c) := by
  constructor
  · constructor
    · intro h y hy
      cases hresp : resp y with
      | error e => exact ⟨e, rfl⟩
      | ok raw =>
        exfalso
        have hmem := fetchLoop_ok_mem p resp YEARS y raw hy hresp
        have hne : (fetchLoop p resp YEARS).dfs ≠ [] := by
          intro hn
          rw [hn] at hmem
          exact List.not_mem_nil _ hmem
        have hemp : (fetchLoop p resp YEARS).dfs.isEmpty = false := by
          simpa [List.isEmpty_iff] using hne
        simp only [runProgram, hemp, Bool.false_eq_true, if_false] at h
        by_cases hfe : (fetchLoop p resp YEARS).dfs.flatten.isEmpty = true
        · rw [if_pos hfe] at h
          exact absurd (Except.error.inj h) (by decide)
        · rw [if_neg hfe] at h
          exact Except.noConfusion h
    · intro h
      have hnil := fetchLoop_dfs_nil p resp YEARS h
      simp only [runProgram, hnil, List.isEmpty_nil, if_true]
  · intro hne hflat
    have hemp : (fetchLoop p resp YEARS).dfs.isEmpty = false := by
      simpa [List.isEmpty_iff] using hne
    have hfe : (fetchLoop p resp YEARS).dfs.flatten.isEmpty = true := by
      rw [hflat]; rfl
    have h1 : (runProgram p resp).1 =
        (fetchLoop p resp YEARS).events ++
          [Event.trendTable (state_trend (fetchLoop p resp YEARS).dfs.flatten)] := by
      simp only [runProgram, hemp, Bool.false_eq_true, if_false, hfe, if_true]
    have h2 : (runProgram p resp).2 = Except.error typeErrorMsg := by
      simp only [runProgram, hemp, Bool.false_eq_true, if_false, hfe, if_true]
    refine ⟨h2, ?_, ?_⟩
    · rw [h1]
      exact List.mem_append_right _ (List.mem_singleton.mpr rfl)
    · intro ev hev
      rw [h1] at hev
      rcases List.mem_append.mp hev with hev | hev
      · rcases fetchLoop_events_shape p resp YEARS ev hev with ⟨y, n, rfl⟩ | ⟨y, e, rfl⟩
        · exact ⟨rfl, rfl, by simp, by intro c; simp⟩
        · exact ⟨rfl, rfl, by simp, by intro c; simp⟩
      · rw [List.mem_singleton.mp hev]
        exact ⟨rfl, rfl, by simp, by intro c; simp⟩

theorem raise_iff_all_failed_witness :
    ((fetchLoop parse0 respOneRow YEARS).dfs ≠ [] ∧
      (fetchLoop parse0 respOneRow YEARS).dfs.flatten = []) ∧
    ((runProgram parse0 respOneRow).2 = Except.error typeErrorMsg ∧
      Event.trendTable (state_trend (fetchLoop parse0 respOneRow YEARS).dfs.flatten)
        ∈ (runProgram parse0 respOneRow).1 ∧
      ∀ ev ∈ (runProgram parse0 respOneRow).1, isChart ev = false ∧
        isReportFail ev = false ∧ ev ≠ Event.overallLine ∧
        ∀ c, ev ≠ Event.corrTableLine c) :=
  ⟨⟨by decide, by decide⟩,
    (raise_iff_all_failed parse0 respOneRow).2 (by decide) (by decide)⟩

/-- Finding a year's row in a table keyed by `year`. -/
lemma find?_map_year (f : ℕ → TrendRow) (hf : ∀ a, (f a).year = a) :
    ∀ (l : List ℕ) (y : ℕ), y ∈ l →
      (l.map f).find? (fun t => t.year == y) = some (f y) := by
  intro l
  induction l with
  | nil => intro y hy; simp at hy
  | cons a t ih =>
    intro y hy
    by_cases hay : a = y
    · subst hay
      rw [List.map_cons, List.find?_cons_of_pos]
      simp [hf a]
    · have hyt : y ∈ t := by
        rcases List.mem_cons.mp hy with h | h
        · exact absurd h.symm hay
        · exact h
      rw [List.map_cons, List.find?_cons_of_neg]
      · exact ih y hyt
      · simp [hf a, hay]

/-- Membership in the group keys is membership among the rows' years. -/
lemma mem_groupYears (rows : List CountyRow) (y : ℕ) :
    y ∈ groupYears rows ↔ y ∈ rows.map (fun c => c.year) := by
  unfold groupYears
  rw [(List.perm_insertionSort _ _).mem_iff, List.mem_dedup]

/-- C2: the `state_trend` row of any year of the combined table exists and
its `n_counties` equals the number of combined rows of that year. -/
theorem n_counties_exact (rows : List CountyRow) (y : ℕ)
    (hy : y ∈ rows.map (fun c => c.year)) :
    ∃ r : TrendRow, (state_trend rows).find? (fun t => t.year == y) = some r ∧
      r.n_counties = (rows.filter (fun c => c.year == y)).length := by
  have hy2 : y ∈ groupYears rows := (mem_groupYears rows y).mpr hy
  unfold state_trend
  refine ⟨_, find?_map_year _ (fun a => rfl) (groupYears rows) y hy2, ?_⟩
  simp

theorem n_counties_exact_witness :
    (2012 ∈ rowsW.map (fun c => c.year)) ∧
    ∃ r : TrendRow, (state_trend rowsW).find? (fun t => t.year == 2012) = some r ∧
      r.n_counties = (rowsW.filter (fun c => c.year == 2012)).length :=
  ⟨by decide, n_counties_exact rowsW 2012 (by decide)⟩

/-- Pearson correlation of fewer than two points is NaN. -/
lemma pearsonR_lt_two (ps : List (ℚ × ℚ)) (h : ps.length < 2) :
    pearsonR ps = none := by
  unfold pearsonR
  rw [if_pos (Or.inl h)]

/-- C6: a year with fewer than two combined rows gets a NaN correlation in
`corr_by_year` (and the computation is total, so no error is raised). -/
theorem corr_nan_of_lt_two (rows : List CountyRow) (r : CorrRow)
    (hr : r ∈ corr_by_year rows)
    (hlen : (rows.filter (fun c => c.year == r.year)).length < 2) :
    r.corr_income_gini = none := by
  unfold corr_by_year at hr
  rcases List.mem_map.mp hr with ⟨y, _, heq⟩
  subst heq
  apply pearsonR_lt_two
  calc (toPairs (rows.filter (fun c => c.year == y))).length
      ≤ (rows.filter (fun c => c.year == y)).length := List.length_filterMap_le _ _
    _ < 2 := hlen

theorem corr_nan_of_lt_two_witness :
    (corr_by_year rowsS).map (fun r => r.corr_income_gini) = [none] := by
  have hg : groupYears rowsS = [2016] := by decide
  have hmap : corr_by_year rowsS =
      [⟨2016, pearsonR (toPairs (rowsS.filter (fun c => c.year == 2016)))⟩] := by
    unfold corr_by_year
    rw [hg, List.map_cons, List.map_nil]
  have hmem : (⟨2016, pearsonR (toPairs (rowsS.filter (fun c => c.year == 2016)))⟩ : CorrRow)
      ∈ corr_by_year rowsS := by
    rw [hmap]
    exact List.mem_singleton.mpr rfl
  have h := corr_nan_of_lt_two rowsS _ hmem (by decide)
  rw [hmap, List.map_cons, List.map_nil]
  simpa using h

/-- First coordinates after swapping are the second coordinates. -/
lemma map_swap_fst (ps : List (ℚ × ℚ)) :
    (ps.map Prod.swap).map Prod.fst = ps.map Prod.snd := by
  rw [List.map_map]; rfl

/-- Second coordinates after swapping are the first coordinates. -/
lemma map_swap_snd (ps : List (ℚ × ℚ)) :
    (ps.map Prod.swap).map Prod.snd = ps.map Prod.fst := by
  rw [List.map_map]; rfl

lemma sxx_swap (ps : List (ℚ × ℚ)) : sxx (ps.map Prod.swap) = syy ps := by
  unfold sxx syy
  rw [map_swap_fst, List.map_map]
  rfl

lemma syy_swap (ps : List (ℚ × ℚ)) : syy (ps.map Prod.swap) = sxx ps := by
  unfold sxx syy
  rw [map_swap_snd, List.map_map]
  rfl

lemma sxy_swap (ps : List (ℚ × ℚ)) : sxy (ps.map Prod.swap) = sxy ps := by
  unfold sxy
  rw [map_swap_fst, map_swap_snd, List.map_map]
  apply congrArg List.sum
  apply List.map_congr_left
  intro a _
  simp only [Function.comp, Prod.fst_swap, Prod.snd_swap]
  ring

/-- Pearson correlation is symmetric in its two arguments. -/
lemma pearsonR_swap (ps : List (ℚ × ℚ)) :
    pearsonR (ps.map Prod.swap) = pearsonR ps := by
  unfold pearsonR
  rw [List.length_map, sxx_swap, syy_swap, sxy_swap]
  by_cases h : ps.length < 2 ∨ sxx ps = 0 ∨ syy ps = 0
  · rw [if_pos (by tauto), if_pos h]
  · rw [if_neg (by tauto), if_neg h, mul_comm]

/-- The swapped pair extraction is the swap of the pair extraction. -/
lemma toPairsGI_eq (rows : List CountyRow) :
    toPairsGI rows = (toPairs rows).map Prod.swap := by
  induction rows with
  | nil => rfl
  | cons r t ih =>
    unfold toPairsGI toPairs at ih ⊢
    cases hi : r.income with
    | none => simpa [List.filterMap_cons, hi] using ih
    | some a =>
      cases hgi : r.gini with
      | none => simpa [List.filterMap_cons, hi, hgi] using ih
      | some b => simpa [List.filterMap_cons, hi, hgi, Prod.swap] using ih

/-- C8: the overall Pearson correlation is symmetric: corr(gini, income)
equals corr(income, gini) on the same row set (exact equality, hence well
within the 1e-9 tolerance). -/
theorem corr_symmetric (rows : List CountyRow) :
    overall_corr_swapped rows = overall_corr rows := by
  unfold overall_corr overall_corr_swapped
  rw [toPairsGI_eq, pearsonR_swap]

/-- C9: every row leaving the fetcher has non-null income and gini. -/
theorem fetcher_no_nulls (p : String → Option ℚ) (raw : List RawRow)
    (year : ℕ) (r : CountyRow) (hr : r ∈ fetch_acs_county_year p raw year) :
    r.income.isSome = true ∧ r.gini.isSome = true := by
  unfold fetch_acs_county_year at hr
  have h := List.of_mem_filter hr
  exact Bool.and_eq_true_iff.mp h

theorem fetcher_no_nulls_witness :
    ((⟨"Allegany County, Maryland", "24", "001", 2012, some 1, some 1⟩ : CountyRow)
      ∈ fetch_acs_county_year parseOne [rawW] 2012) ∧
    ((some (1:ℚ)).isSome = true ∧ (some (1:ℚ)).isSome = true) :=
  ⟨by decide, fetcher_no_nulls parseOne [rawW] 2012
    ⟨"Allegany County, Maryland", "24", "001", 2012, some 1, some 1⟩ (by decide)⟩

/-- The (income, gini) pairs of scenario A. -/
def pairsA : List (ℚ × ℚ) := [(50000, 2/5), (60000, 21/50), (70000, 11/25)]

lemma pearsonR_pairsA : pearsonR pairsA = some 1 := by
  have hxx : sxx pairsA = 200000000 := by norm_num [sxx, pairsA, qmean]
  have hyy : syy pairsA = 1/1250 := by norm_num [syy, pairsA, qmean]
  have hxy : sxy pairsA = 400 := by norm_num [sxy, pairsA, qmean]
  unfold pearsonR
  rw [if_neg]
  · rw [hxx, hyy, hxy]
    congr 1
    rw [show ((400:ℚ):ℝ) = 400 by norm_num]
    rw [show ((200000000:ℚ):ℝ) = 200000000 by norm_num]
    rw [show (((1:ℚ)/1250:ℚ):ℝ) = 1/1250 by norm_num]
    rw [← Real.sqrt_mul (by norm_num)]
    rw [show (200000000:ℝ) * (1/1250) = 400^2 by norm_num]
    rw [Real.sqrt_sq (by norm_num)]
    norm_num
  · push_neg
    refine ⟨by decide, by rw [hxx]; norm_num, by rw [hyy]; norm_num⟩

/-- C7: end-to-end scenario A on the combined table of one year (2012)
with three counties, incomes 50000 / 60000 / 70000 and Gini
0.40 / 0.42 / 0.44: the aggregate row is
(mean 60000, median 60000, mean Gini 0.42, median Gini 0.42, 3 counties)
and the per-year correlation is exactly 1. -/
theorem scenario_a :
    state_trend finalA = [⟨2012, 60000, 60000, 21/50, 21/50, 3⟩] ∧
    corr_by_year finalA = [⟨2012, some 1⟩] := by
  have hg : groupYears finalA = [2012] := by decide
  constructor
  · have hi : (finalA.filter (fun c => c.year == 2012)).filterMap (fun c => c.income)
        = [50000, 60000, 70000] := rfl
    have hgi : (finalA.filter (fun c => c.year == 2012)).filterMap (fun c => c.gini)
        = [2/5, 21/50, 11/25] := rfl
    simp only [state_trend, hg, List.map_cons, List.map_nil, hi, hgi]
    norm_num [qmean, qmedian, List.insertionSort, List.orderedInsert, TrendRow.mk.injEq]
    rfl
  · have hp : toPairs (finalA.filter (fun c => c.year == 2012)) = pairsA := rfl
    simp only [corr_by_year, hg, List.map_cons, List.map_nil, hp]
    rw [pearsonR_pairsA]

/-- C3 (counterexample): in the run where 2012 succeeds with one data row
and the other four years fail, the combined table is non-empty, so the run
completes: the failed-years listing lines are printed, yet they do not
precede the chart displays — the claim that all reporter output, the
failed-years listing included, comes before the charts is false. -/
theorem report_fail_before_charts_cex :
    ¬ (∀ (i j : Fin (runProgram parseOne respC).1.length),
        isReportFail ((runProgram parseOne respC).1.get i) = true →
        isChart ((runProgram parseOne respC).1.get j) = true →
        (i : ℕ) < (j : ℕ)) := by decide

/-- C3 (amended): in every completed run the reporter's three printed
results come immediately before the two charts, and every failed-years
listing line comes after both charts. -/
theorem reporter_chart_order (p : String → Option ℚ)
    (resp : ℕ → Except String (List RawRow)) (res : Results)
    (h : (runProgram p resp).2 = Except.ok res) :
    ∃ pre t c post,
      (runProgram p resp).1 =
        pre ++ [Event.trendTable t, Event.corrTableLine c, Event.overallLine,
                Event.chartIncome, Event.chartGini] ++ post ∧
      (∀ ev ∈ pre, isChart ev = false ∧ isReportFail ev = false ∧
        isReportTable ev = false) ∧
      (∀ ev ∈ post, isChart ev = false ∧ isReportTable ev = false) := by
  by_cases hemp : (fetchLoop p resp YEARS).dfs.isEmpty
  · exfalso
    simp only [runProgram, hemp, if_true] at h
    exact Except.noConfusion h
  · have hemp2 : (fetchLoop p resp YEARS).dfs.isEmpty = false :=
      Bool.eq_false_iff.mpr hemp
    by_cases hfe : (fetchLoop p resp YEARS).dfs.flatten.isEmpty
    · exfalso
      simp only [runProgram, hemp2, Bool.false_eq_true, if_false, hfe, if_true] at h
      exact Except.noConfusion h
    · have hfe2 : (fetchLoop p resp YEARS).dfs.flatten.isEmpty = false :=
        Bool.eq_false_iff.mpr hfe
      refine ⟨(fetchLoop p resp YEARS).events,
        state_trend ((fetchLoop p resp YEARS).dfs.flatten),
        groupYears ((fetchLoop p resp YEARS).dfs.flatten),
        (if (fetchLoop p resp YEARS).failed.isEmpty then []
         else Event.failedHeader ::
           (fetchLoop p resp YEARS).failed.map
             (fun f => Event.reportFailLine f.1 f.2)), ?_, ?_, ?_⟩
      · simp only [runProgram, hemp2, Bool.false_eq_true, if_false, hfe2]
      · intro ev hev
        rcases fetchLoop_events_shape p resp YEARS ev hev with ⟨y, n, rfl⟩ | ⟨y, e, rfl⟩
        · exact ⟨rfl, rfl, rfl⟩
        · exact ⟨rfl, rfl, rfl⟩
      · intro ev hev
        by_cases hf : (fetchLoop p resp YEARS).failed.isEmpty
        · rw [if_pos hf] at hev
          exact absurd hev (List.not_mem_nil _)
        · rw [if_neg hf] at hev
          rcases List.mem_cons.mp hev with rfl | hev
          · exact ⟨rfl, rfl⟩
          · rcases List.mem_map.mp hev with ⟨f, _, rfl⟩
            exact ⟨rfl, rfl⟩

theorem reporter_chart_order_witness :
    ((runProgram parseOne respC).2 = Except.ok ⟨[rowC], state_trend [rowC], failedC⟩) ∧
    ∃ pre t c post,
      (runProgram parseOne respC).1 =
        pre ++ [Event.trendTable t, Event.corrTableLine c, Event.overallLine,
                Event.chartIncome, Event.chartGini] ++ post ∧
      (∀ ev ∈ pre, isChart ev = false ∧ isReportFail ev = false ∧
        isReportTable ev = false) ∧
      (∀ ev ∈ post, isChart ev = false ∧ isReportTable ev = false) := by
  have h0 : (runProgram parseOne respC).2 =
      Except.ok ⟨[rowC], state_trend [rowC], failedC⟩ := rfl
  exact ⟨h0, reporter_chart_order parseOne respC _ h0⟩
